import Mathlib

/- Shallow embedding of the client-side logic of the cliniscribe front-end:
   the remote gateway (src/lib/api.ts), the document store and the
   view-controller handlers (src/app/main/page.tsx), the extraction editor
   (src/components/Documents.tsx), the quick-extract display normalization
   (src/components/QuickExtract.tsx and src/unnamed/part_001) and the
   statistics view (src/components/Statistics.tsx).

   Conventions: optional / possibly-undefined TypeScript values are `Option`;
   JavaScript truthiness is modelled explicitly (the source uses `||` and
   `&&`, whose semantics depend on truthiness, not on mere presence);
   network calls are explicit inputs (the response received) and outputs
   (the fetch call issued), so every handler is a pure state transformer. -/

/-- JSON values as delivered by the backend; numeric values are modelled as
integers (no fractional arithmetic is performed by any embedded code path). -/
inductive Json where
  | null : Json
  | bool (b : Bool) : Json
  | num (n : Int) : Json
  | str (s : String) : Json
  | arr (elems : List Json) : Json
  | obj (fields : List (String × Json)) : Json

/-- Result of a JavaScript property access: reading a property off `null`
throws a TypeError; on any other value the access yields the property value,
or undefined (`none`) when it is absent. -/
inductive PropAccess where
  | thrown : PropAccess
  | value (v : Option Json) : PropAccess

/-- JavaScript property access `j.k` on a JSON value: on `null` it throws a
TypeError; on an object it yields the field (undefined when absent); on any
other non-null value (a boxed primitive or an array) it yields undefined
here, since no such value carries the accessed keys. -/
def jsProp : Json → String → PropAccess
  | .null, _ => .thrown
  | .obj fields, k => .value (fields.lookup k)
  | _, _ => .value none

/-- JavaScript truthiness of a JSON value: `null`, `false`, `0` and `""` are
falsy; every array and object is truthy. -/
def jsTruthy : Json → Bool
  | .null => false
  | .bool b => b
  | .num n => decide (n ≠ 0)
  | .str s => decide (s ≠ "")
  | .arr _ => true
  | .obj _ => true

/-- Truthiness of a possibly-absent value: `undefined` is falsy. -/
def jsTruthyOpt : Option Json → Bool
  | none => false
  | some j => jsTruthy j

mutual

/-- JavaScript `String(·)` coercion of a JSON value, as applied by the
`Error` constructor to a non-string message. -/
def jsToString : Json → String
  | .null => "null"
  | .bool b => if b then "true" else "false"
  | .num n => toString n
  | .str s => s
  | .obj _ => "[object Object]"
  | .arr elems => jsArrJoin elems

/-- Array-to-string coercion: elements joined by commas, with `null`
elements rendered as the empty string. -/
def jsArrJoin : List Json → String
  | [] => ""
  | [Json.null] => ""
  | [j] => jsToString j
  | Json.null :: rest => "," ++ jsArrJoin rest
  | j :: rest => jsToString j ++ "," ++ jsArrJoin rest

end

/-- Truthiness of an optional string (an absent or empty string is falsy). -/
def truthyStr : Option String → Bool
  | none => false
  | some s => decide (s ≠ "")

/-- JavaScript `a || b` on optional string values. -/
def jsOrStr (a b : Option String) : Option String :=
  if truthyStr a then a else b

/-- Document processing states (lib/api.ts, `Document.status`). -/
inductive DocStatus where
  | pending
  | processing
  | completed
  | failed
  deriving DecidableEq

/-- A stored document (lib/api.ts, `interface Document`). -/
structure Document where
  id : Nat
  title : String
  original_text : String
  status : DocStatus
  created_at : String
  updated_at : String
  deriving DecidableEq

/-- Vital-sign fields (lib/api.ts, `interface VitalSigns`): long key names
preferred, short key names kept for backward compatibility. -/
structure VitalSigns where
  blood_pressure : Option String := none
  heart_rate : Option String := none
  respiratory_rate : Option String := none
  temperature : Option String := none
  oxygen_saturation : Option String := none
  bp : Option String := none
  hr : Option String := none
  rr : Option String := none
  temp : Option String := none
  spo2 : Option String := none
  deriving DecidableEq

/-- A structured extraction (lib/api.ts, `interface ExtractedData`); the
backend delivers some categories under short or legacy alias keys. -/
structure ExtractedData where
  id : Option Nat := none
  document : Option Nat := none
  vital_signs : Option VitalSigns := none
  vitals : Option VitalSigns := none
  symptoms : Option (List String) := none
  pain_level : Option Int := none
  pain_location : Option String := none
  consciousness_level : Option String := none
  consciousness : Option String := none
  orientation : Option String := none
  mobility_status : Option String := none
  mobility : Option String := none
  interventions : Option (List String) := none
  is_verified : Option Bool := none
  created_at : Option String := none
  deriving DecidableEq

/-- Normalization of a backend extraction for display and edit, as written in
components/Documents.tsx (normalization useEffect, lines 67-79) and in the
`displayData` computation of the quick-extract view (src/unnamed/part_001):
`vital_signs || vitals || empty-object`, `consciousness_level || consciousness`
and `mobility_status || mobility`, each with JavaScript `||` semantics. -/
def normalizeExtractedData (d : ExtractedData) : ExtractedData :=
  { d with
    vital_signs := some (d.vital_signs.getD (d.vitals.getD {})),
    consciousness_level := jsOrStr d.consciousness_level d.consciousness,
    mobility_status := jsOrStr d.mobility_status d.mobility }

/-- An extraction whose long-form consciousness key is present but holds the
empty string while the legacy alias holds a value. -/
def c1CexInput : ExtractedData :=
  { consciousness_level := some "", consciousness := some "alert" }

/-- C1 counterexample: the long-form key `consciousness_level` is present in
the input, yet the client normalization does not keep its value: JavaScript
`||` treats the present empty string as falsy and the normalized record
takes the legacy alias value instead. -/
theorem C1_counterexample :
    c1CexInput.consciousness_level.isSome = true ∧
    (normalizeExtractedData c1CexInput).consciousness_level ≠
      c1CexInput.consciousness_level := by
  exact ⟨rfl, by decide⟩

/-- C1 (amended): normalization prefers the canonical long-form key when it is
present with a truthy value (for the string-valued pairs, present and
non-empty; a present `vital_signs` object is always truthy) and otherwise
falls back to the short/legacy alias; when both members of the vital-signs
pair are absent the canonical key receives an empty object; and each
canonical key of the normalized output is populated from exactly one of the
long form, the alias, or the empty-object default - never from both members
of a pair at once. -/
theorem C1_normalization_amended (d : ExtractedData) :
    ((truthyStr d.consciousness_level = true →
        (normalizeExtractedData d).consciousness_level = d.consciousness_level) ∧
     (truthyStr d.consciousness_level = false →
        (normalizeExtractedData d).consciousness_level = d.consciousness)) ∧
    ((truthyStr d.mobility_status = true →
        (normalizeExtractedData d).mobility_status = d.mobility_status) ∧
     (truthyStr d.mobility_status = false →
        (normalizeExtractedData d).mobility_status = d.mobility)) ∧
    ((d.vital_signs.isSome = true →
        (normalizeExtractedData d).vital_signs = d.vital_signs) ∧
     (d.vital_signs = none → d.vitals.isSome = true →
        (normalizeExtractedData d).vital_signs = d.vitals) ∧
     (d.vital_signs = none → d.vitals = none →
        (normalizeExtractedData d).vital_signs = some {})) ∧
    (((normalizeExtractedData d).consciousness_level = d.consciousness_level ∨
      (normalizeExtractedData d).consciousness_level = d.consciousness) ∧
     ((normalizeExtractedData d).mobility_status = d.mobility_status ∨
      (normalizeExtractedData d).mobility_status = d.mobility) ∧
     ((normalizeExtractedData d).vital_signs = d.vital_signs ∨
      (normalizeExtractedData d).vital_signs = d.vitals ∨
      (normalizeExtractedData d).vital_signs = some {})) := by
  refine ⟨⟨?_, ?_⟩, ⟨?_, ?_⟩, ⟨?_, ?_, ?_⟩, ?_, ?_, ?_⟩
  · intro h; simp [normalizeExtractedData, jsOrStr, h]
  · intro h; simp [normalizeExtractedData, jsOrStr, h]
  · intro h; simp [normalizeExtractedData, jsOrStr, h]
  · intro h; simp [normalizeExtractedData, jsOrStr, h]
  · intro h
    cases hv : d.vital_signs with
    | none => rw [hv] at h; simp at h
    | some v => simp [normalizeExtractedData, hv]
  · intro h1 h2
    cases hv : d.vitals with
    | none => rw [hv] at h2; simp at h2
    | some v => simp [normalizeExtractedData, h1, hv]
  · intro h1 h2; simp [normalizeExtractedData, h1, h2]
  · cases h : truthyStr d.consciousness_level <;>
      simp [normalizeExtractedData, jsOrStr, h]
  · cases h : truthyStr d.mobility_status <;>
      simp [normalizeExtractedData, jsOrStr, h]
  · cases hv : d.vital_signs with
    | some v => simp [normalizeExtractedData, hv]
    | none =>
        cases hw : d.vitals with
        | some w => simp [normalizeExtractedData, hv, hw]
        | none => simp [normalizeExtractedData, hv, hw]

/-- C1 witness: on an extraction carrying a non-empty long-form value, the
amended theorem yields that normalization keeps the long-form value. -/
theorem C1_witness :
    truthyStr (ExtractedData.consciousness_level
        { consciousness_level := some "alert", consciousness := some "drowsy" }) = true ∧
    (normalizeExtractedData
        { consciousness_level := some "alert", consciousness := some "drowsy" }).consciousness_level
      = some "alert" :=
  ⟨by decide,
   (C1_normalization_amended
      { consciousness_level := some "alert", consciousness := some "drowsy" }).1.1 (by decide)⟩

/-- The client document store held by the main page (app/main/page.tsx):
the document collection, the currently selected document and its
extraction view. -/
structure StoreState where
  documents : List Document
  selectedDocument : Option Document
  extractedData : Option ExtractedData
  deriving DecidableEq

/-- Clearing of the selection and extraction when the given id is currently
selected (app/main/page.tsx:210-213 and 228-231). -/
def clearIfSelected (docId : Nat) (s : StoreState) : StoreState :=
  match s.selectedDocument with
  | some d =>
      if d.id = docId then { s with selectedDocument := none, extractedData := none }
      else s
  | none => s

/-- Outcome of the awaited `ApiService.deleteDocument` call: success, an HTTP
failure whose thrown error carries the response status, or a transport
failure with no response attached. -/
inductive DeleteOutcome where
  | success : DeleteOutcome
  | httpFailure (status : Nat) : DeleteOutcome
  | networkFailure : DeleteOutcome
  deriving DecidableEq

/-- The store transition performed by `handleDeleteDocument`
(app/main/page.tsx:202-254). When the confirmation dialog is declined
nothing happens. Otherwise the selection and extraction are cleared first
when the deleted id is selected, then the delete call is awaited: on
success the document is filtered out of the collection; on a 404 the list
is re-fetched (`reloadResult`, `none` when that re-fetch itself fails) and
the stale captured selection is re-checked; on any other failure only a
notification is shown. Toasts, the loading flag and the 401 token/redirect
side effects do not touch the three store fields modelled here. -/
def handleDeleteDocument (docId : Nat) (confirmDelete : Bool) (outcome : DeleteOutcome)
    (reloadResult : Option (List Document)) (s : StoreState) : StoreState :=
  if confirmDelete = false then s
  else
    let s1 := clearIfSelected docId s
    match outcome with
    | .success => { s1 with documents := s1.documents.filter (fun d => d.id != docId) }
    | .httpFailure st =>
        if st = 404 then
          match reloadResult with
          | some docs =>
              let s2 := { s1 with documents := docs }
              -- the catch block re-checks `selectedDocument`, which is the
              -- value captured at render time, i.e. the pre-handler one
              match s.selectedDocument with
              | some d =>
                  if d.id = docId then
                    { s2 with selectedDocument := none, extractedData := none }
                  else s2
              | none => s2
          | none => s1
        else s1
    | .networkFailure => s1

/-- A concrete completed document used in counterexamples and witnesses. -/
def doc1 : Document :=
  { id := 1, title := "Night Shift", original_text := "Pt awake, BP 120/80",
    status := DocStatus.completed, created_at := "t0", updated_at := "t0" }

/-- A store in which `doc1` is in the collection and currently selected. -/
def c2Store : StoreState :=
  { documents := [doc1], selectedDocument := some doc1, extractedData := some {} }

/-- C2 counterexample: deleting the currently selected document with a
confirmed dialog, when the delete call fails with HTTP 500, leaves the
selection and extraction cleared while the document is still in the
collection - an outcome the claim says can never happen. -/
theorem C2_counterexample :
    c2Store.selectedDocument = some doc1 ∧
    handleDeleteDocument 1 true (DeleteOutcome.httpFailure 500) none c2Store
      = { documents := [doc1], selectedDocument := none, extractedData := none } := by
  exact ⟨rfl, by decide⟩

/-- C2 (amended): when the user confirms deletion of the currently selected
document, a successful delete removes it from the collection and clears the
selection and extraction; but the clearing is not atomic with the removal:
on an HTTP failure other than 404, or on a transport failure, the selection
and extraction are cleared while the document remains in the collection;
and a declined confirmation leaves the store unchanged. -/
theorem C2_delete_amended (docId st : Nat) (outcome : DeleteOutcome)
    (reloadResult : Option (List Document)) (s : StoreState) (d : Document)
    (hsel : s.selectedDocument = some d) (hid : d.id = docId) (hst : st ≠ 404) :
    (handleDeleteDocument docId true DeleteOutcome.success reloadResult s).documents
        = s.documents.filter (fun x => x.id != docId) ∧
    (handleDeleteDocument docId true DeleteOutcome.success reloadResult s).selectedDocument
        = none ∧
    (handleDeleteDocument docId true DeleteOutcome.success reloadResult s).extractedData
        = none ∧
    (handleDeleteDocument docId true (DeleteOutcome.httpFailure st) reloadResult s).documents
        = s.documents ∧
    (handleDeleteDocument docId true (DeleteOutcome.httpFailure st) reloadResult s).selectedDocument
        = none ∧
    (handleDeleteDocument docId true (DeleteOutcome.httpFailure st) reloadResult s).extractedData
        = none ∧
    (handleDeleteDocument docId true DeleteOutcome.networkFailure reloadResult s).documents
        = s.documents ∧
    (handleDeleteDocument docId true DeleteOutcome.networkFailure reloadResult s).selectedDocument
        = none ∧
    handleDeleteDocument docId false outcome reloadResult s = s := by
  refine ⟨?_, ?_, ?_, ?_, ?_, ?_, ?_, ?_, ?_⟩ <;>
    simp [handleDeleteDocument, clearIfSelected, hsel, hid, hst]

/-- C2 witness: the amended theorem evaluated on the concrete store
`c2Store` with a confirmed delete of document 1 failing with HTTP 500. -/
theorem C2_witness :
    c2Store.selectedDocument = some doc1 ∧ doc1.id = 1 ∧ (500 : Nat) ≠ 404 ∧
    (handleDeleteDocument 1 true (DeleteOutcome.httpFailure 500) none c2Store).documents
      = c2Store.documents :=
  ⟨rfl, rfl, by decide,
   (C2_delete_amended 1 500 DeleteOutcome.success none c2Store doc1 rfl rfl
      (by decide)).2.2.2.1⟩

/-- Local state of the Documents component relevant to editing
(components/Documents.tsx:53-54): the edit-mode flag and the transient edit
buffer. -/
structure EditorState where
  isEditing : Bool
  editedData : Option ExtractedData
  deriving DecidableEq

/-- Gateway calls a Documents-component handler can trigger (through the
page-level `onCorrectExtraction`, which runs `updateStructuredData` and then
re-fetches the structured data). The store extraction can change only
through such calls. -/
inductive ApiCall where
  | updateStructuredData (documentId : Nat) (payload : ExtractedData) : ApiCall
  | getStructuredData (documentId : Nat) : ApiCall
  deriving DecidableEq

/-- Effect of the normalization useEffect (components/Documents.tsx:67-79):
whenever a (truthy) store extraction arrives, the edit buffer is set to its
normalized form and edit mode is left; a null extraction changes nothing. -/
def onExtractedDataEffect (storeExtraction : Option ExtractedData)
    (st : EditorState) : EditorState :=
  match storeExtraction with
  | some d => { isEditing := false, editedData := some (normalizeExtractedData d) }
  | none => st

/-- The Edit button (components/Documents.tsx:483): enter edit mode. -/
def startEditing (st : EditorState) : EditorState :=
  { st with isEditing := true }

/-- A field-level edit: `setEditedData(prev => prev ? f(prev) : null)`. No
gateway call is made. -/
def applyFieldEdit (f : ExtractedData → ExtractedData) (st : EditorState) :
    EditorState × List ApiCall :=
  ({ st with editedData := st.editedData.map f }, [])

/-- A sequence of field-level edits applied to the buffer, collecting the
gateway calls they make. -/
def applyFieldEdits (fs : List (ExtractedData → ExtractedData)) (st : EditorState) :
    EditorState × List ApiCall :=
  match fs with
  | [] => (st, [])
  | f :: rest =>
      let r1 := applyFieldEdit f st
      let r2 := applyFieldEdits rest r1.1
      (r2.1, r1.2 ++ r2.2)

/-- The Cancel button onClick (components/Documents.tsx:500-511): leave edit
mode and, when the store holds an extraction, reset the buffer to it. No
gateway call is made. -/
def cancelEdit (storeExtraction : Option ExtractedData) (st : EditorState) :
    EditorState × List ApiCall :=
  ({ isEditing := false,
     editedData :=
       match storeExtraction with
       | some d => some d
       | none => st.editedData }, [])

/-- The Save button handler (components/Documents.tsx:81-97): with a buffer
and a selected document, sends the entire buffer through the correction
endpoint and leaves edit mode; otherwise only a toast is shown. This is the
only editor handler that emits a gateway call. -/
def handleSaveEdit (selectedDocument : Option Document) (st : EditorState) :
    EditorState × List ApiCall :=
  match st.editedData, selectedDocument with
  | some d, some doc =>
      ({ st with isEditing := false }, [ApiCall.updateStructuredData doc.id d])
  | _, _ => (st, [])

/-- One concrete field setter from the source (the blood-pressure input,
components/Documents.tsx:602-611). -/
def setBloodPressure (v : String) (d : ExtractedData) : ExtractedData :=
  { d with vital_signs := some { d.vital_signs.getD {} with blood_pressure := some v } }

/-- Field-level edits never emit a gateway call. -/
theorem applyFieldEdits_calls_nil (fs : List (ExtractedData → ExtractedData)) :
    ∀ st : EditorState, (applyFieldEdits fs st).2 = [] := by
  induction fs with
  | nil => intro st; rfl
  | cons f rest ih =>
      intro st
      simp [applyFieldEdits, applyFieldEdit, ih]

/-- C3: for every store extraction and every sequence of field-level edits,
entering edit mode, editing the buffer and pressing Cancel leaves the
component holding exactly the store's last-known extraction as its buffer,
out of edit mode, with no gateway call emitted by the edits or the cancel;
since the store extraction can change only through gateway calls, the
displayed extraction is unchanged - edit-then-cancel is the identity. -/
theorem C3_cancel_restores (st : EditorState) (d : ExtractedData)
    (fs : List (ExtractedData → ExtractedData)) :
    (let st0 := onExtractedDataEffect (some d) st
     let st1 := startEditing st0
     let r2 := applyFieldEdits fs st1
     let r3 := cancelEdit (some d) r2.1
     r3.1.editedData = some d ∧ r3.1.isEditing = false ∧ r2.2 ++ r3.2 = []) := by
  refine ⟨rfl, rfl, ?_⟩
  simp [cancelEdit, applyFieldEdits_calls_nil]

/-- The browser local storage slots the client uses (access and refresh
tokens). -/
structure LocalStorage where
  access_token : Option String
  refresh_token : Option String
  deriving DecidableEq

/-- ApiService.getToken (lib/api.ts:67-70), in a browser context: the stored
access token, if any. -/
def getToken (ls : LocalStorage) : Option String :=
  ls.access_token

/-- The default API base URL (lib/api.ts:2). -/
def API_BASE_URL : String := "http://localhost:8000/api"

/-- A header list: a JavaScript header object is a record, so setting a key
replaces an existing entry in place and otherwise appends it. -/
def upsertHeader : List (String × String) → String → String → List (String × String)
  | [], k, v => [(k, v)]
  | p :: rest, k, v =>
      if p.1 == k then (k, v) :: rest else p :: upsertHeader rest k v

/-- Object spread { ...base, ...extra }: every entry of extra is written over
base in order. -/
def mergeHeaders (base extra : List (String × String)) : List (String × String) :=
  extra.foldl (fun acc p => upsertHeader acc p.1 p.2) base

/-- Header lookup. -/
def hget (hs : List (String × String)) (k : String) : Option String :=
  (hs.find? (fun p => p.1 == k)).map (fun p => p.2)

/-- The header object built by ApiService.request (lib/api.ts:75-82):
Content-Type, then the caller's headers spread over it, then Authorization
set when a token is present. -/
def requestHeaders (ls : LocalStorage) (optionHeaders : List (String × String)) :
    List (String × String) :=
  match getToken ls with
  | some t =>
      upsertHeader (mergeHeaders [("Content-Type", "application/json")] optionHeaders)
        "Authorization" ("Bearer " ++ t)
  | none => mergeHeaders [("Content-Type", "application/json")] optionHeaders

/-- Options passed to ApiService.request (method defaults to GET as in
fetch). -/
structure RequestOptions where
  method : String := "GET"
  headers : List (String × String) := []
  body : Option String := none
  deriving DecidableEq

/-- An outgoing fetch call. -/
structure FetchCall where
  url : String
  method : String
  headers : List (String × String)
  body : Option String
  deriving DecidableEq

/-- The fetch call issued by ApiService.request (lib/api.ts:84-87). It is
built for every token state: a missing token only omits the Authorization
header, it is not an error at this layer. -/
def requestCall (ls : LocalStorage) (url : String) (opts : RequestOptions) : FetchCall :=
  { url := API_BASE_URL ++ url
    method := opts.method
    headers := requestHeaders ls opts.headers
    body := opts.body }

/-- The HTTP response the transport hands back: status, status text, the
result of parsing the body as JSON (none when parsing fails) and whether the
content-type header includes application/json. -/
structure HttpResponse where
  status : Nat
  statusText : String
  body : Option Json
  contentTypeJson : Bool

/-- Response.ok per the fetch specification: the status is in the inclusive
range 200..299. -/
def responseOk (r : HttpResponse) : Bool :=
  decide (200 ≤ r.status) && decide (r.status < 300)

/-- Failures ApiService.request can raise: the typed API error built for a
non-2xx response (carrying the message, the response and the parsed error
body), the TypeError thrown at lib/api.ts:91 when the error body parses to
JSON null and errorData.message is read off it, or the rejection of
response.json() on the success path. -/
inductive RequestError where
  | apiError (message : String) (response : HttpResponse) (data : Json) : RequestError
  | typeError : RequestError
  | jsonParseError : RequestError

/-- Message selection for a non-2xx response (lib/api.ts:91) once the
property access has produced a value: errorData.message || "API Error: " +
statusText, with JavaScript truthiness and String coercion of a non-string
message. -/
def errorMessage (message : Option Json) (statusText : String) : String :=
  match message with
  | some m => if jsTruthy m then jsToString m else "API Error: " ++ statusText
  | none => "API Error: " ++ statusText

/-- Response handling of ApiService.request (lib/api.ts:89-108): on non-2xx
the error body is parsed (an empty object when parsing fails) and
errorData.message is read - a TypeError when the body parsed to JSON null,
the typed API error otherwise; 204 yields no value; a JSON content-type
yields the parsed body (raising when parsing fails); anything else yields no
value. -/
def handleResponse (r : HttpResponse) : Except RequestError (Option Json) :=
  if responseOk r = false then
    match jsProp (r.body.getD (Json.obj [])) "message" with
    | PropAccess.thrown => Except.error RequestError.typeError
    | PropAccess.value m =>
        Except.error (RequestError.apiError (errorMessage m r.statusText) r
          (r.body.getD (Json.obj [])))
  else if r.status = 204 then Except.ok none
  else if r.contentTypeJson then
    match r.body with
    | some j => Except.ok (some j)
    | none => Except.error RequestError.jsonParseError
  else Except.ok none

/-- ApiService.request as a whole: the fetch call it issues and the value or
failure it produces from the response it receives. -/
def request (ls : LocalStorage) (url : String) (opts : RequestOptions)
    (r : HttpResponse) : FetchCall × Except RequestError (Option Json) :=
  (requestCall ls url opts, handleResponse r)

/-- The fetch call issued by ApiService.logout (lib/api.ts:115-123): a bare
fetch with only a Content-Type header - no Authorization header is ever
attached - whose raw response is returned with no status check. The
view-controller handleLogout issues the same call shape. -/
def logoutCall (refreshToken : String) : FetchCall :=
  { url := API_BASE_URL ++ "/auth/logout/"
    method := "POST"
    headers := [("Content-Type", "application/json")]
    body := some ("\x7b\"refresh\":\"" ++ refreshToken ++ "\"\x7d") }

/-- ApiService.logout returns the raw fetch response whatever its status. -/
def logoutResult (r : HttpResponse) : Except RequestError HttpResponse :=
  Except.ok r

/-- The fetch call issued by ApiService.exportDocument (lib/api.ts:171-185):
Content-Type plus a conditionally spread Authorization header. -/
def exportCall (ls : LocalStorage) (documentId : Nat) (format : String) : FetchCall :=
  { url := API_BASE_URL ++ "/nlp/documents/" ++ toString documentId ++ "/export/"
    method := "POST"
    headers := [("Content-Type", "application/json")] ++
      (match getToken ls with
       | some t => [("Authorization", "Bearer " ++ t)]
       | none => [])
    body := some ("\x7b\"format\":\"" ++ format ++ "\"\x7d") }

/-- Looking a key up past a non-matching header leaves the lookup to the
rest. -/
theorem hget_cons_ne {p : String × String} {k : String} (h : (p.1 == k) = false)
    (hs : List (String × String)) : hget (p :: hs) k = hget hs k := by
  simp [hget, List.find?_cons, h]

/-- Looking up the key of the head header yields its value. -/
theorem hget_cons_self (k v : String) (hs : List (String × String)) :
    hget ((k, v) :: hs) k = some v := by
  simp [hget, List.find?_cons]

/-- Setting a header makes it visible to lookup. -/
theorem hget_upsertHeader_self (hs : List (String × String)) (k v : String) :
    hget (upsertHeader hs k v) k = some v := by
  induction hs with
  | nil => simp [upsertHeader, hget, List.find?_cons]
  | cons p rest ih =>
      by_cases h : (p.1 == k) = true
      · simp [upsertHeader, h, hget_cons_self]
      · rw [upsertHeader, if_neg h, hget_cons_ne (by simpa using h), ih]

/-- Setting one header leaves the lookup of a different key unchanged. -/
theorem hget_upsertHeader_ne (hs : List (String × String)) (k v k2 : String)
    (hk : (k == k2) = false) : hget (upsertHeader hs k v) k2 = hget hs k2 := by
  induction hs with
  | nil => simp [upsertHeader, hget, List.find?_cons, hk]
  | cons p rest ih =>
      by_cases h : (p.1 == k) = true
      · rw [upsertHeader, if_pos h, hget_cons_ne hk]
        have hp : (p.1 == k2) = false := by
          have hpk : p.1 = k := by simpa using h
          simpa [hpk] using hk
        rw [hget_cons_ne hp]
      · rw [upsertHeader, if_neg h]
        by_cases h2 : (p.1 == k2) = true
        · have hp2 : p.1 = k2 := by simpa using h2
          subst hp2
          simp [hget, List.find?_cons, ih]
        · rw [hget_cons_ne (by simpa using h2), hget_cons_ne (by simpa using h2), ih]

/-- Spreading headers that do not mention a key leaves its lookup to the
base object. -/
theorem hget_mergeHeaders_of_absent (extra base : List (String × String))
    (k : String) (h : hget extra k = none) :
    hget (mergeHeaders base extra) k = hget base k := by
  induction extra generalizing base with
  | nil => rfl
  | cons p rest ih =>
      have hp : (p.1 == k) = false := by
        by_contra hc
        have hp1 : (p.1 == k) = true := by
          cases hx : (p.1 == k) with
          | true => rfl
          | false => exact absurd hx hc
        simp [hget, List.find?_cons, hp1] at h
      have hrest : hget rest k = none := by
        rw [hget_cons_ne hp] at h
        exact h
      show hget (mergeHeaders (upsertHeader base p.1 p.2) rest) k = hget base k
      rw [ih _ hrest, hget_upsertHeader_ne base p.1 p.2 k hp]

/-- A 500 response whose parsed error body carries a present but empty
message string. -/
def c4CexResponse : HttpResponse :=
  { status := 500, statusText := "Internal Server Error",
    body := some (Json.obj [("message", Json.str "")]), contentTypeJson := true }

/-- A 500 response whose body parses to JSON null. -/
def c4NullBodyResponse : HttpResponse :=
  { status := 500, statusText := "Internal Server Error",
    body := some Json.null, contentTypeJson := true }

/-- C4 counterexample: two non-2xx responses refute the claim as stated.
First, a parsed error body that makes a message available - the field is
present, holding the empty string - yet the raised failure's message is the
transport status text form, because the source selects with JavaScript ||
and the empty string is falsy. Second, a body parsing to JSON null: the
operation does not raise the typed failure carrying the response and parsed
error body at all - reading errorData.message off null throws a TypeError
first. -/
theorem C4_counterexample :
    jsProp (c4CexResponse.body.getD (Json.obj [])) "message"
      = PropAccess.value (some (Json.str "")) ∧
    handleResponse c4CexResponse
      = Except.error (RequestError.apiError ("API Error: " ++ "Internal Server Error")
          c4CexResponse (Json.obj [("message", Json.str "")])) ∧
    "API Error: " ++ "Internal Server Error" ≠ "" ∧
    handleResponse c4NullBodyResponse = Except.error RequestError.typeError := by
  refine ⟨rfl, rfl, by decide, rfl⟩

/-- C4 (amended): every request receiving a non-2xx response never returns
normally; when reading the message off the parsed error body does not throw
- that is, for every body except JSON null (the empty-object fallback for an
unparseable body included) - it raises the typed API failure carrying the
response and the parsed error body, whose message is the string coercion of
the body's message field when that field is present with a truthy (in
particular, non-empty) value and is "API Error: " followed by the transport
status text when the field is absent or its value is falsy; when the error
body parses to JSON null, the message read itself throws a TypeError and no
typed failure is built. -/
theorem C4_request_amended (ls : LocalStorage) (url : String) (opts : RequestOptions)
    (r : HttpResponse) (h : responseOk r = false) :
    (∀ v, (request ls url opts r).2 ≠ Except.ok v) ∧
    (r.body.getD (Json.obj []) = Json.null →
        (request ls url opts r).2 = Except.error RequestError.typeError) ∧
    (∀ m0, jsProp (r.body.getD (Json.obj [])) "message" = PropAccess.value m0 →
      ∃ m, (request ls url opts r).2
          = Except.error (RequestError.apiError m r (r.body.getD (Json.obj []))) ∧
        (∀ j, m0 = some j → jsTruthy j = true → m = jsToString j) ∧
        (∀ j, m0 = some j → jsTruthy j = false → m = "API Error: " ++ r.statusText) ∧
        (m0 = none → m = "API Error: " ++ r.statusText)) := by
  refine ⟨?_, ?_, ?_⟩
  · intro v
    cases hp : jsProp (r.body.getD (Json.obj [])) "message" <;>
      simp [request, handleResponse, h, hp]
  · intro hnull
    simp [request, handleResponse, h, hnull, jsProp]
  · intro m0 hp
    refine ⟨errorMessage m0 r.statusText, ?_, ?_, ?_, ?_⟩
    · simp [request, handleResponse, h, hp]
    · intro j hj htj
      subst hj
      simp [errorMessage, htj]
    · intro j hj htj
      subst hj
      simp [errorMessage, htj]
    · intro hn
      subst hn
      simp [errorMessage]

/-- An empty local storage (no tokens held). -/
def emptyStorage : LocalStorage :=
  { access_token := none, refresh_token := none }

/-- A 400 response with a truthy message in its error body. -/
def c4WitnessResponse : HttpResponse :=
  { status := 400, statusText := "Bad Request",
    body := some (Json.obj [("message", Json.str "title required")]),
    contentTypeJson := true }

/-- C4 witness: the amended theorem evaluated on a concrete 400 response
whose body carries a truthy message. -/
theorem C4_witness :
    responseOk c4WitnessResponse = false ∧
    jsProp (c4WitnessResponse.body.getD (Json.obj [])) "message"
      = PropAccess.value (some (Json.str "title required")) ∧
    ∃ m, (request emptyStorage "/nlp/documents/" {} c4WitnessResponse).2
        = Except.error (RequestError.apiError m c4WitnessResponse
            (c4WitnessResponse.body.getD (Json.obj []))) ∧
      (∀ j, some (Json.str "title required") = some j → jsTruthy j = true →
          m = jsToString j) ∧
      (∀ j, some (Json.str "title required") = some j → jsTruthy j = false →
          m = "API Error: " ++ c4WitnessResponse.statusText) ∧
      (some (Json.str "title required") = (none : Option Json) →
          m = "API Error: " ++ c4WitnessResponse.statusText) :=
  ⟨rfl, rfl,
   (C4_request_amended emptyStorage "/nlp/documents/" {} c4WitnessResponse rfl).2.2
     (some (Json.str "title required")) rfl⟩

/-- C5: a request whose response has status 204 yields no value, for every
token state, endpoint and request options. -/
theorem C5_204_yields_nothing (ls : LocalStorage) (url : String)
    (opts : RequestOptions) (r : HttpResponse) (h : r.status = 204) :
    (request ls url opts r).2 = Except.ok none := by
  have hok : responseOk r = true := by simp [responseOk, h]
  simp [request, handleResponse, hok, h]

/-- A bare 204 No Content response. -/
def r204 : HttpResponse :=
  { status := 204, statusText := "No Content", body := none, contentTypeJson := false }

/-- C5 witness: a DELETE on a document endpoint receiving 204 yields no
value. -/
theorem C5_witness :
    r204.status = 204 ∧
    (request emptyStorage "/nlp/documents/7/" { method := "DELETE" } r204).2
      = Except.ok none :=
  ⟨rfl, C5_204_yields_nothing emptyStorage "/nlp/documents/7/" { method := "DELETE" } r204 rfl⟩

/-- A local storage holding both tokens. -/
def c6Storage : LocalStorage :=
  { access_token := some "tok123", refresh_token := some "ref456" }

/-- C6 counterexample: with an access token present in local storage, the
logout operation still issues its fetch without any Authorization header -
not every gateway call attaches the bearer header when a token is
present. -/
theorem C6_counterexample :
    getToken c6Storage = some "tok123" ∧
    hget (logoutCall "ref456").headers "Authorization" = none := by
  exact ⟨rfl, rfl⟩

/-- C6 (amended): every call built by the shared request helper and by
exportDocument attaches "Authorization: Bearer token" exactly when an access
token is present in local storage, and a missing token still produces the
call, just without the header (assuming the caller options do not themselves
set one); the logout call, however, never carries an Authorization header
even when a token is present. -/
theorem C6_bearer_amended (ls : LocalStorage) (url : String) (opts : RequestOptions)
    (documentId : Nat) (format rt t : String) :
    (getToken ls = some t →
        hget (requestCall ls url opts).headers "Authorization" = some ("Bearer " ++ t)) ∧
    (getToken ls = none → hget opts.headers "Authorization" = none →
        hget (requestCall ls url opts).headers "Authorization" = none) ∧
    (getToken ls = some t →
        hget (exportCall ls documentId format).headers "Authorization"
          = some ("Bearer " ++ t)) ∧
    (getToken ls = none →
        hget (exportCall ls documentId format).headers "Authorization" = none) ∧
    hget (logoutCall rt).headers "Authorization" = none := by
  refine ⟨?_, ?_, ?_, ?_, rfl⟩
  · intro h
    simp only [requestCall, requestHeaders, h]
    exact hget_upsertHeader_self _ _ _
  · intro h hopts
    simp only [requestCall, requestHeaders, h]
    rw [hget_mergeHeaders_of_absent _ _ _ hopts]
    rfl
  · intro h
    simp only [exportCall, h, List.singleton_append]
    have hne : ((("Content-Type", "application/json") : String × String).1
        == "Authorization") = false := by decide
    rw [hget_cons_ne hne, hget_cons_self]
  · intro h
    simp only [exportCall, h]
    rfl

/-- C6 witness: with a stored token, a profile request carries the bearer
header. -/
theorem C6_witness :
    getToken c6Storage = some "tok123" ∧
    hget (requestCall c6Storage "/auth/profile/" {}).headers "Authorization"
      = some ("Bearer " ++ "tok123") :=
  ⟨rfl,
   (C6_bearer_amended c6Storage "/auth/profile/" {} 0 "csv" "ref456" "tok123").1 rfl⟩

/-- What the awaited logout fetch does: resolves with some response (any
status) or rejects with a transport error. -/
inductive LogoutFetchOutcome where
  | response (r : HttpResponse) : LogoutFetchOutcome
  | networkError : LogoutFetchOutcome

/-- The view-controller handleLogout (app/main/page.tsx:256-290, and the
identical handler in src/unnamed/part_002): with no refresh token, both
token slots are cleared and the browser is sent to /authentication without
any fetch; with a refresh token, the logout fetch is issued and - whether it
resolves with any status or rejects - both token slots are cleared and the
browser is sent to /authentication. Returns the final storage, the
navigation target and the fetch calls issued. -/
def handleLogout (ls : LocalStorage) (outcome : LogoutFetchOutcome) :
    LocalStorage × Option String × List FetchCall :=
  match ls.refresh_token with
  | none =>
      ({ access_token := none, refresh_token := none }, some "/authentication", [])
  | some rt =>
      match outcome with
      | .response _r =>
          ({ access_token := none, refresh_token := none }, some "/authentication",
           [logoutCall rt])
      | .networkError =>
          ({ access_token := none, refresh_token := none }, some "/authentication",
           [logoutCall rt])

/-- C7: in every outcome - success, non-2xx response, transport error, or no
refresh token held - handleLogout removes both stored tokens and navigates
to the authentication entry point. -/
theorem C7_logout_always_clears (ls : LocalStorage) (outcome : LogoutFetchOutcome) :
    (handleLogout ls outcome).1 = { access_token := none, refresh_token := none } ∧
    (handleLogout ls outcome).2.1 = some "/authentication" := by
  obtain ⟨a, rt⟩ := ls
  cases rt <;> cases outcome <;> exact ⟨rfl, rfl⟩

/-- A triggered browser download. -/
structure DownloadAction where
  filename : String
  content : String
  deriving DecidableEq

/-- The view-controller handleExport (app/main/page.tsx:167-186): nothing
happens without a selected document; otherwise the export call's outcome is
awaited - a blob triggers a download named title.format, a thrown error only
shows a toast. No branch touches the documents, the selection or the
extraction. -/
def handleExport (s : StoreState) (format : String) (outcome : Except String String) :
    StoreState × Option DownloadAction :=
  match s.selectedDocument with
  | none => (s, none)
  | some doc =>
      match outcome with
      | .ok blob => (s, some { filename := doc.title ++ "." ++ format, content := blob })
      | .error _ => (s, none)

/-- C8: with a selected document, a successful export triggers a download
named exactly title.format carrying the returned blob, and the store - the
document collection, the selected document and the stored extraction - is
returned unchanged. -/
theorem C8_export_filename_and_frame (s : StoreState) (doc : Document)
    (format blob : String) (h : s.selectedDocument = some doc) :
    handleExport s format (Except.ok blob)
      = (s, some { filename := doc.title ++ "." ++ format, content := blob }) := by
  simp [handleExport, h]

/-- C8 witness: exporting the selected concrete document as csv downloads
"Night Shift.csv" and leaves the store as it was. -/
theorem C8_witness :
    c2Store.selectedDocument = some doc1 ∧
    handleExport c2Store "csv" (Except.ok "blobdata")
      = (c2Store, some { filename := doc1.title ++ "." ++ "csv", content := "blobdata" }) :=
  ⟨rfl, C8_export_filename_and_frame c2Store doc1 "csv" "blobdata" rfl⟩

/-- A statistics snapshot as fetched (components/Statistics.tsx, interface
Statistics); every field may be absent. Numeric values are modelled as
integers: the defaulting under test does not depend on the numeric
representation. -/
structure StatisticsResponse where
  total_documents : Option Int := none
  total_extractions : Option Int := none
  total_corrections : Option Int := none
  accuracy_rate : Option Int := none
  avg_processing_time : Option Int := none
  deriving DecidableEq

/-- JavaScript `x || 0` on an optional number: absent and zero are both
falsy, so both default to 0. -/
def jsOrZero (a : Option Int) : Int :=
  match a with
  | none => 0
  | some n => if n = 0 then 0 else n

/-- The five displayed statistics values (components/Statistics.tsx:105-175):
each rendered as `field || 0`. -/
structure StatisticsView where
  totalDocuments : Int
  totalExtractions : Int
  accuracyRate : Int
  totalCorrections : Int
  avgProcessingTime : Int
  deriving DecidableEq

/-- The read-only rendering of a snapshot into the displayed values. -/
def renderStatistics (stats : StatisticsResponse) : StatisticsView :=
  { totalDocuments := jsOrZero stats.total_documents
    totalExtractions := jsOrZero stats.total_extractions
    accuracyRate := jsOrZero stats.accuracy_rate
    totalCorrections := jsOrZero stats.total_corrections
    avgProcessingTime := jsOrZero stats.avg_processing_time }

/-- Local state of the Statistics component (components/Statistics.tsx:24-26). -/
structure StatisticsCompState where
  stats : Option StatisticsResponse
  error : Option String
  loading : Bool
  deriving DecidableEq

/-- Outcome of the statistics fetch: parsed data, a non-ok response, or a
transport error carrying its thrown message. -/
inductive StatsFetchOutcome where
  | ok (data : StatisticsResponse) : StatsFetchOutcome
  | httpError : StatsFetchOutcome
  | networkError (msg : String) : StatsFetchOutcome

/-- loadStatistics (components/Statistics.tsx:32-60): without a token the
handler errors before any fetch; a non-ok response or transport error only
records an error message; success replaces the snapshot wholesale and
clears the error. The snapshot is never modified in place. -/
def loadStatistics (ls : LocalStorage) (outcome : StatsFetchOutcome)
    (st : StatisticsCompState) : StatisticsCompState :=
  match getToken ls with
  | none => { st with error := some "No authentication token found", loading := false }
  | some _ =>
      match outcome with
      | .ok data => { stats := some data, error := none, loading := false }
      | .httpError => { st with error := some "Failed to fetch statistics", loading := false }
      | .networkError msg => { st with error := some msg, loading := false }

/-- The rendered value of an optional field is its value, defaulting to 0
when absent. -/
theorem jsOrZero_eq_getD (a : Option Int) : jsOrZero a = a.getD 0 := by
  cases a with
  | none => rfl
  | some n =>
      by_cases h : n = 0
      · simp [jsOrZero, h]
      · simp [jsOrZero, h]

/-- C9: each displayed statistics field - total documents, total
extractions, accuracy rate, total corrections, average processing time -
equals the fetched field when present and 0 when absent; a successful
(re)fetch replaces the snapshot wholesale with exactly the fetched data,
and a failed fetch leaves the held snapshot untouched. -/
theorem C9_statistics_defaults (stats data : StatisticsResponse)
    (ls : LocalStorage) (st : StatisticsCompState) (t msg : String)
    (ht : getToken ls = some t) :
    (renderStatistics stats).totalDocuments = stats.total_documents.getD 0 ∧
    (renderStatistics stats).totalExtractions = stats.total_extractions.getD 0 ∧
    (renderStatistics stats).accuracyRate = stats.accuracy_rate.getD 0 ∧
    (renderStatistics stats).totalCorrections = stats.total_corrections.getD 0 ∧
    (renderStatistics stats).avgProcessingTime = stats.avg_processing_time.getD 0 ∧
    (loadStatistics ls (StatsFetchOutcome.ok data) st).stats = some data ∧
    (loadStatistics ls StatsFetchOutcome.httpError st).stats = st.stats ∧
    (loadStatistics ls (StatsFetchOutcome.networkError msg) st).stats = st.stats ∧
    (loadStatistics emptyStorage (StatsFetchOutcome.ok data) st).stats = st.stats := by
  refine ⟨jsOrZero_eq_getD _, jsOrZero_eq_getD _, jsOrZero_eq_getD _,
    jsOrZero_eq_getD _, jsOrZero_eq_getD _, ?_, ?_, ?_, rfl⟩ <;>
    simp [loadStatistics, ht]

/-- A concrete partial snapshot: only two fields delivered. -/
def c9Snapshot : StatisticsResponse :=
  { total_documents := some 12, accuracy_rate := some 88 }

/-- C9 witness: on a partial snapshot the present fields are displayed as-is
and the absent ones display as 0, and a successful fetch stores the
snapshot unchanged. -/
theorem C9_witness :
    getToken c6Storage = some "tok123" ∧
    (renderStatistics c9Snapshot).totalDocuments = c9Snapshot.total_documents.getD 0 ∧
    (loadStatistics c6Storage (StatsFetchOutcome.ok c9Snapshot)
        { stats := none, error := none, loading := true }).stats = some c9Snapshot :=
  ⟨rfl,
   (C9_statistics_defaults c9Snapshot c9Snapshot c6Storage
      { stats := none, error := none, loading := true } "tok123" "m" rfl).1,
   (C9_statistics_defaults c9Snapshot c9Snapshot c6Storage
      { stats := none, error := none, loading := true } "tok123" "m" rfl).2.2.2.2.2.1⟩

/-- Failures of ApiService.quickExtract: the propagated request failure, or
the TypeError raised at lib/api.ts:156 by reading .success off a null
request result - whether that null comes from a 204 / non-JSON response or
from a body that parsed to JSON null. -/
inductive QuickExtractFailure where
  | requestFailed (e : RequestError) : QuickExtractFailure
  | nullResponseAccess : QuickExtractFailure

/-- ApiService.quickExtract (lib/api.ts:149-162): the quick-extract POST is
made through the shared request helper; response.success is then read - a
TypeError when the helper returned null (so also when the body parsed to
JSON null); when the response carries a truthy success flag together with a
truthy extracted_data field, the inner extracted_data value is returned,
and otherwise the raw response value is returned unchanged as the
extraction. -/
def quickExtract (r : HttpResponse) : Except QuickExtractFailure Json :=
  match handleResponse r with
  | .error e => .error (.requestFailed e)
  | .ok none => .error .nullResponseAccess
  | .ok (some resp) =>
      match jsProp resp "success" with
      | .thrown => .error .nullResponseAccess
      | .value s =>
          match jsProp resp "extracted_data" with
          | .thrown => .error .nullResponseAccess
          | .value e =>
              if jsTruthyOpt s && jsTruthyOpt e then .ok (e.getD Json.null)
              else .ok resp

/-- A 200 JSON response whose body is literally null. -/
def c10CexResponse : HttpResponse :=
  { status := 200, statusText := "OK", body := some Json.null, contentTypeJson := true }

/-- C10 counterexample: a 200 JSON response whose body parses to null is
handed back by the request helper as the value null; its success flag is
not truthy, so the claim requires the raw response value (null) to be
returned unchanged as the extraction - but the program instead throws a
TypeError reading response.success off null. -/
theorem C10_counterexample :
    handleResponse c10CexResponse = Except.ok (some Json.null) ∧
    quickExtract c10CexResponse
      = Except.error QuickExtractFailure.nullResponseAccess ∧
    Except.error QuickExtractFailure.nullResponseAccess ≠ Except.ok Json.null := by
  refine ⟨rfl, rfl, by simp⟩

/-- C10 (amended): for every backend response the request helper parses to a
JSON value: when that value is null, reading its success flag throws a
TypeError and no extraction is returned; otherwise quickExtract returns the
inner extracted_data value exactly when the response carries a truthy
success flag together with a truthy extracted_data field, and otherwise
returns the raw response value unchanged as the extraction. -/
theorem C10_quickExtract_amended (r : HttpResponse) (resp : Json)
    (h : handleResponse r = Except.ok (some resp)) :
    (resp = Json.null →
        quickExtract r = Except.error QuickExtractFailure.nullResponseAccess) ∧
    (∀ s ed, jsProp resp "success" = PropAccess.value (some s) → jsTruthy s = true →
        jsProp resp "extracted_data" = PropAccess.value (some ed) → jsTruthy ed = true →
        quickExtract r = Except.ok ed) ∧
    (∀ s e, jsProp resp "success" = PropAccess.value s →
        jsProp resp "extracted_data" = PropAccess.value e →
        (jsTruthyOpt s && jsTruthyOpt e) = false →
        quickExtract r = Except.ok resp) := by
  refine ⟨?_, ?_, ?_⟩
  · intro hnull
    subst hnull
    simp [quickExtract, h, jsProp]
  · intro s ed hs hts he hte
    have h1 : jsTruthyOpt (some s) = true := by
      simpa [jsTruthyOpt] using hts
    have h2 : jsTruthyOpt (some ed) = true := by
      simpa [jsTruthyOpt] using hte
    simp [quickExtract, h, hs, he, h1, h2]
  · intro s e hs he hc
    simp [quickExtract, h, hs, he, hc]

/-- A successful quick-extract response wrapping an extraction object. -/
def c10Response : HttpResponse :=
  { status := 200, statusText := "OK",
    body := some (Json.obj
      [("success", Json.bool true),
       ("extracted_data", Json.obj [("symptoms", Json.arr [Json.str "headache"])])]),
    contentTypeJson := true }

/-- C10 witness: on a concrete wrapped response, quickExtract returns the
inner extracted_data object. -/
theorem C10_witness :
    handleResponse c10Response
      = Except.ok (some (Json.obj
          [("success", Json.bool true),
           ("extracted_data", Json.obj [("symptoms", Json.arr [Json.str "headache"])])])) ∧
    quickExtract c10Response
      = Except.ok (Json.obj [("symptoms", Json.arr [Json.str "headache"])]) :=
  ⟨rfl,
   (C10_quickExtract_amended c10Response
      (Json.obj
        [("success", Json.bool true),
         ("extracted_data", Json.obj [("symptoms", Json.arr [Json.str "headache"])])])
      rfl).2.1 (Json.bool true)
     (Json.obj [("symptoms", Json.arr [Json.str "headache"])]) rfl rfl rfl rfl⟩
